import Mathlib

/-!
Shallow embedding of the transport-search core of the excursium backend
(`app/services/transport.py`, `app/schemas/transport.py`,
`app/models/transport.py`, `app/models/city.py`).

Timestamps are modelled as `Int` (only order comparisons occur in the code),
prices and ratings as `Rat` (the code only compares them with `<=`/`>=`).
Database tables are lists of rows; SQL row order is modelled as the scan
order of those lists, and `ORDER BY` as a stable insertion sort on the
single requested key, exactly the one sort key the code passes to
`order_by`.
-/

namespace Excursium

/-- Source `app/models/city.py`: City(id, name, region). -/
structure City where
  id : Nat
  name : String
  region : String
  deriving DecidableEq, Repr

/-- Source `app/models/carrier` rows, reduced to the two fields the transport
service reads (`Carrier.id`, `Carrier.user_id`). -/
structure Carrier where
  id : Nat
  user_id : Nat
  deriving DecidableEq, Repr

/-- Source `app/models/transport.py`: Transport row. -/
structure Transport where
  id : Nat
  name : String
  brand : String
  model : String
  year : Nat
  n_seat : Nat
  photo : String
  luggage : Bool
  wifi : Bool
  tv : Bool
  air_conditioning : Bool
  toilet : Bool
  rating : Rat
  carrier_id : Nat
  deriving DecidableEq, Repr

/-- Source `app/models/transport.py`: Route row; (id_from, id_to) carries a
uniqueness constraint `uq_route_from_to` in the table definition. -/
structure Route where
  id : Nat
  id_from : Nat
  id_to : Nat
  deriving DecidableEq, Repr

/-- Source `app/models/transport.py`: TransportRoute row (a vehicle's price band
on one route). -/
structure TransportRoute where
  id : Nat
  min_price : Rat
  max_price : Rat
  route_id : Nat
  transport_id : Nat
  deriving DecidableEq, Repr

/-- Modelled from the spec: the body of `ScheduleReasonEnum` is not under
`src/` (only its import sites are); the spec fixes `technical` plus other
enumerated reasons, so we model one `TECHNICAL` constructor and one other. -/
inductive ScheduleReasonEnum where
  | TECHNICAL
  | OTHER
  deriving DecidableEq, Repr

/-- Source `app/models/transport.py`: Schedule row (a commitment interval). -/
structure Schedule where
  id : Nat
  start_time : Int
  end_time : Int
  reason : ScheduleReasonEnum
  id_transport : Nat
  route_id : Option Nat
  deriving DecidableEq, Repr

/-- The database state read and written by the transport services.  The
`next*Id` counters model the autoincrement primary keys. -/
structure DB where
  cities : List City
  carriers : List Carrier
  transports : List Transport
  routes : List Route
  transport_routes : List TransportRoute
  schedules : List Schedule
  nextRouteId : Nat
  nextTransportRouteId : Nat
  nextScheduleId : Nat
  deriving DecidableEq, Repr

/-- Source `app/schemas/transport.py`: sort_by literal ("rating" | "price"). -/
inductive SortBy where
  | rating
  | price
  deriving DecidableEq, Repr

/-- Source `app/schemas/transport.py`: sort_order literal ("asc" | "desc"). -/
inductive SortOrder where
  | asc
  | desc
  deriving DecidableEq, Repr

/-- Source `app/schemas/transport.py`: TransportFilter request model. -/
structure TransportFilter where
  id_from : Nat
  id_to : Nat
  start_time : Int
  end_time : Int
  n_seat : Nat
  min_price : Rat
  max_price : Rat
  luggage : Option Bool
  wifi : Option Bool
  tv : Option Bool
  air_conditioning : Option Bool
  toilet : Option Bool
  sort_by : Option SortBy
  sort_order : Option SortOrder
  deriving DecidableEq, Repr

/-- Source `app/schemas/transport.py`: TransportFilterResponse. -/
structure TransportFilterResponse where
  id : Nat
  carrier_id : Nat
  brand : String
  model : String
  n_seat : Nat
  luggage : Bool
  wifi : Bool
  tv : Bool
  air_conditioning : Bool
  toilet : Bool
  photo : String
  rating : Rat
  min_price : Rat
  max_price : Rat
  deriving DecidableEq, Repr

/-- An `HTTPException(status_code, detail)` raised by a service. -/
structure HttpError where
  status : Nat
  detail : String
  deriving DecidableEq, Repr

/-- The where-clause of the busy subquery in `filter_transports_service`:
`NOT (Schedule.end_time <= filters.start_time OR
Schedule.start_time >= filters.end_time)`. -/
def overlapsWindow (s : Schedule) (qs qe : Int) : Bool :=
  !(decide (s.end_time ≤ qs) || decide (s.start_time ≥ qe))

/-- The busy subquery: ids of transports having a schedule that overlaps
the requested window. -/
def busyIds (db : DB) (qs qe : Int) : List Nat :=
  (db.schedules.filter (fun s => overlapsWindow s qs qe)).map (·.id_transport)

/-- The exclusion test `Transport.id.in_(select(subq.c.id_transport))`
applied to one transport id. -/
def isBusy (db : DB) (tid : Nat) (qs qe : Int) : Bool :=
  (busyIds db qs qe).contains tid

/-- The FROM/JOIN clause of the main query:
`select(Transport, TransportRoute).join(Transport.transport_routes)
.join(TransportRoute.route)`; each row pairs a transport with one of its
price-band assignments and that assignment's route. -/
def joinRows (db : DB) : List (Transport × TransportRoute × Route) :=
  db.transports.flatMap (fun t =>
    (db.transport_routes.filter (fun tr => tr.transport_id == t.id)).flatMap (fun tr =>
      (db.routes.filter (fun r => r.id == tr.route_id)).map (fun r => (t, tr, r))))

/-- Optional amenity condition: an absent filter flag imposes no
constraint, a present one demands equality with the vehicle's flag. -/
def optMatch : Option Bool → Bool → Bool
  | none, _ => true
  | some b, v => v == b

/-- The WHERE clause of the main query in `filter_transports_service`. -/
def rowPasses (db : DB) (f : TransportFilter) : Transport × TransportRoute × Route → Bool
  | (t, tr, r) =>
    r.id_from == f.id_from && r.id_to == f.id_to &&
    decide (t.n_seat ≥ f.n_seat) &&
    decide (tr.min_price ≥ f.min_price) && decide (tr.max_price ≤ f.max_price) &&
    !(isBusy db t.id f.start_time f.end_time) &&
    optMatch f.luggage t.luggage &&
    optMatch f.wifi t.wifi &&
    optMatch f.tv t.tv &&
    optMatch f.air_conditioning t.air_conditioning &&
    optMatch f.toilet t.toilet

/-- Source `SORT_FIELD_MAP.get(filters.sort_by, Transport.rating)`: the single
sort key of the query. -/
def sortKey (f : TransportFilter) : Transport × TransportRoute × Route → Rat
  | (t, tr, _) =>
    match f.sort_by with
    | some SortBy.price => tr.min_price
    | some SortBy.rating => t.rating
    | none => t.rating

/-- Source `order_func = desc if filters.sort_order == "desc" else asc`, applied
to the sort key: the row comparison used by `ORDER BY`. -/
def rowLe (f : TransportFilter) (a b : Transport × TransportRoute × Route) : Bool :=
  if f.sort_order = some SortOrder.desc then decide (sortKey f b ≤ sortKey f a)
  else decide (sortKey f a ≤ sortKey f b)

/-- The propositional form of `rowLe`, the relation `ORDER BY` sorts by. -/
def rowLeR (f : TransportFilter) (a b : Transport × TransportRoute × Route) : Prop :=
  rowLe f a b = true

instance (f : TransportFilter) : DecidableRel (rowLeR f) :=
  fun _ _ => by unfold rowLeR; exact inferInstance

/-- Constructing one `TransportFilterResponse` from a (transport,
assignment) row, exactly the field mapping in the response loop. -/
def mkResp (t : Transport) (tr : TransportRoute) : TransportFilterResponse :=
  { id := t.id
    carrier_id := t.carrier_id
    brand := t.brand
    model := t.model
    n_seat := t.n_seat
    luggage := t.luggage
    wifi := t.wifi
    tv := t.tv
    air_conditioning := t.air_conditioning
    toilet := t.toilet
    photo := t.photo
    rating := t.rating
    min_price := tr.min_price
    max_price := tr.max_price }

/-- Source `filter_transports_service`: join, filter, order by the requested key,
404 on an empty row set, otherwise the response list in row order. -/
def filterTransportsService (db : DB) (f : TransportFilter) :
    Except HttpError (List TransportFilterResponse) :=
  let rows := (joinRows db).filter (rowPasses db f)
  let sorted := List.insertionSort (rowLeR f) rows
  if sorted.isEmpty then
    Except.error ⟨404, "No transports found matching the filters"⟩
  else
    Except.ok (sorted.map (fun x => mkResp x.1 x.2.1))

/-- The join of `get_transport_by_id_service`:
`select(Transport, TransportRoute).join(Transport.transport_routes)` —
an inner join of transports with their assignments, no route join. -/
def joinTransportAssignments (db : DB) : List (Transport × TransportRoute) :=
  db.transports.flatMap (fun t =>
    (db.transport_routes.filter (fun tr => tr.transport_id == t.id)).map (fun tr => (t, tr)))

/-- Source `get_transport_by_id_service`: first row of the inner join restricted
to the requested id, 404 "Transport not found" when there is none. -/
def getTransportByIdService (db : DB) (transport_id : Nat) :
    Except HttpError TransportFilterResponse :=
  match ((joinTransportAssignments db).filter (fun x => x.1.id == transport_id)).head? with
  | none => Except.error ⟨404, "Transport not found"⟩
  | some (t, tr) => Except.ok (mkResp t tr)

/-- Source `get_transport_and_validate_user`: fetch the transport (404 when
absent) and compare its carrier's user_id with the current user (403 on
mismatch).  The code navigates `transport.carrier` unconditionally; a
dangling carrier_id would raise an unhandled AttributeError, modelled as
a 500. -/
def getTransportAndValidateUser (db : DB) (transport_id user_id : Nat) :
    Except HttpError Transport :=
  match db.transports.find? (fun t => t.id == transport_id) with
  | none => Except.error ⟨404, "Transport not found"⟩
  | some t =>
    match db.carriers.find? (fun c => c.id == t.carrier_id) with
    | none => Except.error ⟨500, "AttributeError"⟩
    | some c =>
      if c.user_id == user_id then Except.ok t
      else Except.error ⟨403, "Access denied"⟩

/-- The foreign-key reference routes.id_from / routes.id_to →
cities.id (models/transport.py, also in the alembic migration): the
database checks the referenced city row exists on insert. -/
def cityExists (db : DB) (cid : Nat) : Bool :=
  db.cities.any (fun c => c.id == cid)

/-- The route-resolution block of `add_route_to_transport_service`: look
the (id_from, id_to) pair up; when absent, insert a fresh row and
commit.  The service code itself never consults the cities table, but
the insert's commit is subject to the foreign-key constraints on
id_from/id_to: when either city row is missing the database raises
IntegrityError, which no service code catches — modelled as an
unhandled 500 "IntegrityError" with the transaction rolled back
(nothing persisted). -/
def getOrCreateRoute (db : DB) (id_from id_to : Nat) : Except HttpError (Route × DB) :=
  match db.routes.find? (fun r => r.id_from == id_from && r.id_to == id_to) with
  | some r => Except.ok (r, db)
  | none =>
    if cityExists db id_from && cityExists db id_to then
      let r : Route := ⟨db.nextRouteId, id_from, id_to⟩
      Except.ok (r, { db with routes := db.routes ++ [r], nextRouteId := db.nextRouteId + 1 })
    else
      Except.error ⟨500, "IntegrityError"⟩

/-- Source `add_route_to_transport_service`: ownership check, get-or-create the
route (committed immediately, so it persists even when the duplicate
check then fails; when that commit violates the city foreign keys the
unhandled IntegrityError propagates with nothing persisted), reject a
duplicate (transport, route) assignment with 400, otherwise insert the
price band.  The state is returned alongside the outcome. -/
def addRouteToTransportService (db : DB) (transport_id id_from id_to : Nat)
    (min_price max_price : Rat) (user_id : Nat) :
    DB × Except HttpError TransportRoute :=
  match getTransportAndValidateUser db transport_id user_id with
  | Except.error e => (db, Except.error e)
  | Except.ok t =>
    match getOrCreateRoute db id_from id_to with
    | Except.error e => (db, Except.error e)
    | Except.ok (route, db1) =>
      match db1.transport_routes.find?
          (fun tr => tr.transport_id == t.id && tr.route_id == route.id) with
      | some _ =>
        (db1, Except.error ⟨400, "This route is already assigned to the transport"⟩)
      | none =>
        let tr : TransportRoute :=
          ⟨db1.nextTransportRouteId, min_price, max_price, route.id, t.id⟩
        ({ db1 with
            transport_routes := db1.transport_routes ++ [tr]
            nextTransportRouteId := db1.nextTransportRouteId + 1 },
          Except.ok tr)

/-- Source `app/schemas/transport.py`: ScheduleCreate payload. -/
structure ScheduleCreate where
  transport_id : Nat
  start_time : Int
  end_time : Int
  reason : ScheduleReasonEnum
  deriving DecidableEq, Repr

/-- Source `add_transport_schedule_service`: ownership check, then reject with
400 when a schedule with the identical (transport, start_time, end_time)
triple already exists — a literal-equality check, not an overlap check —
otherwise insert the schedule.  The duplicate failure happens before
`db.add`, so it leaves the state unchanged. -/
def addTransportScheduleService (db : DB) (payload : ScheduleCreate) (user_id : Nat) :
    DB × Except HttpError Schedule :=
  match getTransportAndValidateUser db payload.transport_id user_id with
  | Except.error e => (db, Except.error e)
  | Except.ok t =>
    let schedule : Schedule :=
      ⟨db.nextScheduleId, payload.start_time, payload.end_time, payload.reason, t.id, none⟩
    if db.schedules.any (fun s =>
        s.id_transport == payload.transport_id &&
        decide (s.start_time = payload.start_time) &&
        decide (s.end_time = payload.end_time)) then
      (db, Except.error ⟨400, "Schedule with these times already exists for this transport"⟩)
    else
      ({ db with
          schedules := db.schedules ++ [schedule]
          nextScheduleId := db.nextScheduleId + 1 },
        Except.ok schedule)

/-- Source `TransportFilter.validate_times_and_prices`: the `errors` mapping,
built field by field in the order of the source checks. -/
def validateTimesAndPrices (now : Int) (f : TransportFilter) : List (String × String) :=
  (if f.start_time < now then [("start_time", "Must be in the future")] else []) ++
  (if f.end_time ≤ f.start_time then [("end_time", "Must be after start_time")] else []) ++
  (if f.max_price < f.min_price then
    [("max_price", "Must be greater than or equal to min_price")] else [])

/-- The outcome of running `TransportFilter.validate_times_and_prices`:
either the accepted filter, or the crash of its error path.  When
`errors` is nonempty the code calls
`ValidationError.from_exception_data(name, [(k, v) for k, v in ...])`,
passing (field, message) tuples where pydantic v2 requires
InitErrorDetails dicts; pydantic_core rejects the tuples with
TypeError, an exception the validator machinery does not convert into a
validation error, so the errors mapping never leaves the function. -/
inductive FilterValidationResult where
  | ok (f : TransportFilter)
  | typeError
  deriving DecidableEq, Repr

/-- The tail of the validator: accept the filter when `errors` is empty,
otherwise attempt the raise, which crashes with TypeError (see
`FilterValidationResult`), delivering no field→reason data. -/
def transportFilterValidate (now : Int) (f : TransportFilter) :
    FilterValidationResult :=
  let errors := validateTimesAndPrices now f
  if errors.isEmpty then FilterValidationResult.ok f
  else FilterValidationResult.typeError

/-- C1: the busy-exclusion test of the search is true for a vehicle
exactly when some schedule interval [s, e) of that vehicle satisfies
NOT (e <= qs OR s >= qe) against the query window [qs, qe); in
particular an interval that merely touches an endpoint (e = qs or
s = qe) never causes exclusion. -/
theorem isBusy_iff_overlapping_interval (db : DB) (tid : Nat) (qs qe : Int) :
    isBusy db tid qs qe = true ↔
      ∃ s ∈ db.schedules, s.id_transport = tid ∧
        ¬(s.end_time ≤ qs ∨ s.start_time ≥ qe) := by
  simp only [isBusy, busyIds, overlapsWindow, List.elem_iff, List.mem_map,
    List.mem_filter, decide_eq_true_eq, Bool.not_eq_true', Bool.or_eq_false_iff,
    decide_eq_false_iff_not, not_or]
  constructor
  · rintro ⟨s, ⟨hs, h1, h2⟩, hid⟩
    exact ⟨s, hs, hid, h1, h2⟩
  · rintro ⟨s, hs, hid, h1, h2⟩
    exact ⟨s, ⟨hs, h1, h2⟩, hid⟩

lemma mem_joinRows {db : DB} {x : Transport × TransportRoute × Route} :
    x ∈ joinRows db ↔
      x.1 ∈ db.transports ∧ x.2.1 ∈ db.transport_routes ∧
        x.2.1.transport_id = x.1.id ∧ x.2.2 ∈ db.routes ∧ x.2.2.id = x.2.1.route_id := by
  obtain ⟨t, tr, r⟩ := x
  simp only [joinRows, List.mem_flatMap, List.mem_map, List.mem_filter, beq_iff_eq,
    Prod.mk.injEq]
  constructor
  · rintro ⟨t', ht', tr', ⟨htr', hid⟩, r', ⟨hr', hrid⟩, het, hetr, her⟩
    subst het; subst hetr; subst her
    exact ⟨ht', htr', hid, hr', hrid⟩
  · rintro ⟨ht, htr, hid, hr, hrid⟩
    exact ⟨t, ht, tr, ⟨htr, hid⟩, r, ⟨hr, hrid⟩, rfl, rfl, rfl⟩

lemma mem_joinTransportAssignments {db : DB} {x : Transport × TransportRoute} :
    x ∈ joinTransportAssignments db ↔
      x.1 ∈ db.transports ∧ x.2 ∈ db.transport_routes ∧ x.2.transport_id = x.1.id := by
  obtain ⟨t, tr⟩ := x
  simp only [joinTransportAssignments, List.mem_flatMap, List.mem_map, List.mem_filter,
    beq_iff_eq, Prod.mk.injEq]
  constructor
  · rintro ⟨t', ht', tr', ⟨htr', hid⟩, het, hetr⟩
    subst het; subst hetr
    exact ⟨ht', htr', hid⟩
  · rintro ⟨ht, htr, hid⟩
    exact ⟨t, ht, tr, ⟨htr, hid⟩, rfl, rfl⟩

/-- C2 counterexample input: an empty store. -/
def dbC2 : DB := ⟨[], [], [], [], [], [], 0, 0, 0⟩

/-- C2 counterexample input: a well-formed filter. -/
def fC2 : TransportFilter :=
  ⟨1, 2, 0, 10, 1, 0, 100, none, none, none, none, none,
    some SortBy.rating, some SortOrder.desc⟩

/-- C2: the claim is false — on a store where no vehicle passes the
filters, the search raises HTTPException 404 instead of returning an
empty list; it never returns `ok` here. -/
theorem filter_zero_results_is_error :
    filterTransportsService dbC2 fC2 =
        Except.error ⟨404, "No transports found matching the filters"⟩ ∧
      ∀ rs : List TransportFilterResponse,
        filterTransportsService dbC2 fC2 ≠ Except.ok rs :=
  ⟨rfl, fun _ h => Except.noConfusion ((rfl :
    filterTransportsService dbC2 fC2 =
      Except.error ⟨404, "No transports found matching the filters"⟩).symm.trans h)⟩

/-- C2 amended: the search signals zero results with HTTPException
404 "No transports found matching the filters", and it does so exactly
when no (vehicle, assignment, route) row passes all filters; a nonempty
surviving set is returned as a normal list. -/
theorem filter_404_iff_no_matching_row (db : DB) (f : TransportFilter) :
    filterTransportsService db f =
        Except.error ⟨404, "No transports found matching the filters"⟩ ↔
      (joinRows db).filter (rowPasses db f) = [] := by
  have hperm := List.perm_insertionSort (rowLeR f) ((joinRows db).filter (rowPasses db f))
  cases hrows : (joinRows db).filter (rowPasses db f) with
  | nil => simp [filterTransportsService, hrows]
  | cons x xs =>
    rw [hrows] at hperm
    have hne : List.insertionSort (rowLeR f) (x :: xs) ≠ [] := by
      intro hnil
      rw [hnil] at hperm
      exact List.noConfusion hperm.symm.eq_nil
    have hemp : (List.insertionSort (rowLeR f) (x :: xs)).isEmpty = false := by
      cases hs : List.insertionSort (rowLeR f) (x :: xs) with
      | nil => exact absurd hs hne
      | cons y ys => rfl
    simp [filterTransportsService, hrows, hemp]
    exact hne

lemma mem_ok_result {db : DB} {f : TransportFilter} {rs : List TransportFilterResponse}
    (h : filterTransportsService db f = Except.ok rs)
    {resp : TransportFilterResponse} (hresp : resp ∈ rs) :
    ∃ row, row ∈ joinRows db ∧ rowPasses db f row = true ∧ mkResp row.1 row.2.1 = resp := by
  simp only [filterTransportsService] at h
  split at h
  · exact absurd h (by simp)
  · rw [Except.ok.injEq] at h
    subst h
    obtain ⟨row, hrow, heq⟩ := List.mem_map.mp hresp
    have hmem : row ∈ (joinRows db).filter (rowPasses db f) :=
      (List.mem_insertionSort _).mp hrow
    obtain ⟨hj, hp⟩ := List.mem_filter.mp hmem
    exact ⟨row, hj, hp, heq⟩

/-- C3: every vehicle kept by the search has its price band contained in
the requested bounds: assignment.min_price >= filter.min_price and
assignment.max_price <= filter.max_price. -/
theorem price_band_must_fit (db : DB) (f : TransportFilter)
    (rs : List TransportFilterResponse)
    (h : filterTransportsService db f = Except.ok rs) :
    ∀ resp ∈ rs, f.min_price ≤ resp.min_price ∧ resp.max_price ≤ f.max_price := by
  intro resp hresp
  obtain ⟨⟨t, tr, r⟩, _, hp, heq⟩ := mem_ok_result h hresp
  subst heq
  simp only [rowPasses, Bool.and_eq_true, decide_eq_true_eq, ge_iff_le, and_assoc] at hp
  obtain ⟨_, _, _, h4, h5, _⟩ := hp
  exact ⟨h4, h5⟩

/-- C3 witness data: one vehicle with band [100, 300] assigned to route
1→2, and a filter requesting [50, 600]. -/
def t3 : Transport :=
  ⟨1, "Bus-1", "Mercedes", "Sprinter", 2020, 40, "p.jpg",
    false, false, false, false, false, 4, 1⟩

def tr3 : TransportRoute := ⟨1, 100, 300, 1, 1⟩

def r3 : Route := ⟨1, 1, 2⟩

def db3 : DB := ⟨[], [], [t3], [r3], [tr3], [], 2, 2, 0⟩

def f3 : TransportFilter :=
  ⟨1, 2, 0, 10, 1, 50, 600, none, none, none, none, none,
    some SortBy.rating, some SortOrder.desc⟩

/-- C3 witness: the search on the concrete store succeeds and the kept
band [100, 300] lies inside the requested [50, 600]. -/
theorem price_band_must_fit_witness :
    filterTransportsService db3 f3 = Except.ok [mkResp t3 tr3] ∧
      ∀ resp ∈ [mkResp t3 tr3],
        f3.min_price ≤ resp.min_price ∧ resp.max_price ≤ f3.max_price :=
  ⟨rfl, price_band_must_fit db3 f3 [mkResp t3 tr3] rfl⟩

/-- C5: a vehicle none of whose assignments lies on a route matching the
ordered requested pair (id_from, id_to) never appears in the search
result — route matching is directional. -/
theorem route_match_is_directional (db : DB) (f : TransportFilter) (v : Nat)
    (hv : ∀ tr ∈ db.transport_routes, tr.transport_id = v →
      ∀ r ∈ db.routes, r.id = tr.route_id →
        ¬(r.id_from = f.id_from ∧ r.id_to = f.id_to)) :
    ∀ rs, filterTransportsService db f = Except.ok rs →
      ∀ resp ∈ rs, resp.id ≠ v := by
  intro rs h resp hresp hid
  obtain ⟨⟨t, tr, r⟩, hj, hp, heq⟩ := mem_ok_result h hresp
  obtain ⟨_, htr, htid, hr, hrid⟩ := mem_joinRows.mp hj
  simp only [rowPasses, Bool.and_eq_true, decide_eq_true_eq, beq_iff_eq, and_assoc] at hp
  obtain ⟨hfrom, hto, _⟩ := hp
  have htv : t.id = v := by rw [← heq] at hid; exact hid
  exact hv tr htr (htid.trans htv) r hr hrid ⟨hfrom, hto⟩

/-- C5 witness data: vehicle 1 serves route 1→2, vehicle 2 serves only
the reverse route 2→1; the filter asks for 1→2. -/
def t5a : Transport :=
  ⟨1, "Bus-A", "b", "m", 2020, 40, "p", false, false, false, false, false, 4, 1⟩

def t5b : Transport :=
  ⟨2, "Bus-B", "b", "m", 2020, 40, "p", false, false, false, false, false, 4, 1⟩

def r5ab : Route := ⟨1, 1, 2⟩

def r5ba : Route := ⟨2, 2, 1⟩

def tr5a : TransportRoute := ⟨1, 100, 300, 1, 1⟩

def tr5b : TransportRoute := ⟨2, 100, 300, 2, 2⟩

def db5 : DB := ⟨[], [], [t5a, t5b], [r5ab, r5ba], [tr5a, tr5b], [], 3, 3, 0⟩

def f5 : TransportFilter :=
  ⟨1, 2, 0, 10, 1, 50, 600, none, none, none, none, none,
    some SortBy.rating, some SortOrder.desc⟩

/-- C5 witness: on the concrete store the search for 1→2 returns only
vehicle 1; vehicle 2, assigned solely to 2→1, is absent. -/
theorem route_match_is_directional_witness :
    (∀ tr ∈ db5.transport_routes, tr.transport_id = 2 →
      ∀ r ∈ db5.routes, r.id = tr.route_id →
        ¬(r.id_from = f5.id_from ∧ r.id_to = f5.id_to)) ∧
    filterTransportsService db5 f5 = Except.ok [mkResp t5a tr5a] ∧
    (∀ rs, filterTransportsService db5 f5 = Except.ok rs →
      ∀ resp ∈ rs, resp.id ≠ 2) :=
  ⟨by decide, rfl, route_match_is_directional db5 f5 2 (by decide)⟩

/-- The requested sort key read off a response row (the response copies
`rating` and `min_price` verbatim from the sorted row). -/
def respKey (f : TransportFilter) (resp : TransportFilterResponse) : Rat :=
  match f.sort_by with
  | some SortBy.price => resp.min_price
  | _ => resp.rating

/-- The requested ordering on responses: descending exactly when
sort_order = desc, ascending otherwise. -/
def respLe (f : TransportFilter) (a b : TransportFilterResponse) : Prop :=
  if f.sort_order = some SortOrder.desc then respKey f b ≤ respKey f a
  else respKey f a ≤ respKey f b

lemma respKey_mkResp (f : TransportFilter) (t : Transport) (tr : TransportRoute)
    (r : Route) : respKey f (mkResp t tr) = sortKey f (t, tr, r) := by
  unfold respKey sortKey mkResp
  cases hb : f.sort_by with
  | none => rfl
  | some b => cases b <;> rfl

lemma rowLe_total (f : TransportFilter) :
    ∀ a b, rowLeR f a b ∨ rowLeR f b a := by
  intro a b
  unfold rowLeR rowLe
  by_cases h : f.sort_order = some SortOrder.desc <;>
    simp [h, decide_eq_true_eq] <;> exact le_total _ _

lemma rowLe_trans (f : TransportFilter) :
    ∀ a b c, rowLeR f a b → rowLeR f b c → rowLeR f a c := by
  intro a b c hab hbc
  unfold rowLeR rowLe at *
  by_cases h : f.sort_order = some SortOrder.desc <;>
    simp [h, decide_eq_true_eq] at hab hbc ⊢
  · exact le_trans hbc hab
  · exact le_trans hab hbc

lemma respLe_of_rowLe (f : TransportFilter)
    {a b : Transport × TransportRoute × Route} (h : rowLeR f a b) :
    respLe f (mkResp a.1 a.2.1) (mkResp b.1 b.2.1) := by
  unfold rowLeR rowLe at h
  unfold respLe
  by_cases ho : f.sort_order = some SortOrder.desc <;>
    simp [ho, decide_eq_true_eq] at h ⊢ <;>
    rw [respKey_mkResp f a.1 a.2.1 a.2.2, respKey_mkResp f b.1 b.2.1 b.2.2] <;>
    exact h

/-- C8 amended: a successful search result is sorted by the requested
key in the requested direction (the single ORDER BY key of the query);
no further tie-break is applied. -/
theorem search_result_sorted_by_key (db : DB) (f : TransportFilter)
    (rs : List TransportFilterResponse)
    (h : filterTransportsService db f = Except.ok rs) :
    List.Pairwise (respLe f) rs := by
  simp only [filterTransportsService] at h
  split at h
  · exact absurd h (by simp)
  · rw [Except.ok.injEq] at h
    subst h
    haveI : IsTotal _ (rowLeR f) := ⟨rowLe_total f⟩
    haveI : IsTrans _ (rowLeR f) := ⟨rowLe_trans f⟩
    have hs : List.Sorted (rowLeR f)
        (List.insertionSort (rowLeR f) ((joinRows db).filter (rowPasses db f))) :=
      List.sorted_insertionSort (rowLeR f) _
    exact List.Pairwise.map _ (fun a b hab => respLe_of_rowLe f hab) hs

/-- C8 counterexample data: two vehicles with the same rating, the row
with vehicle id 2 stored before the row with vehicle id 1, both on route
1→2 and matching the filter. -/
def t8a : Transport :=
  ⟨2, "Bus-2", "b", "m", 2020, 40, "p", false, false, false, false, false, 4, 1⟩

def t8b : Transport :=
  ⟨1, "Bus-1", "b", "m", 2020, 40, "p", false, false, false, false, false, 4, 1⟩

def r8 : Route := ⟨1, 1, 2⟩

def tr8a : TransportRoute := ⟨1, 100, 300, 1, 2⟩

def tr8b : TransportRoute := ⟨2, 100, 300, 1, 1⟩

def db8 : DB := ⟨[], [], [t8a, t8b], [r8], [tr8a, tr8b], [], 2, 3, 0⟩

def f8 : TransportFilter :=
  ⟨1, 2, 0, 10, 1, 50, 600, none, none, none, none, none,
    some SortBy.rating, some SortOrder.desc⟩

/-- C8 counterexample: both vehicles tie on the sort key (rating 4), yet
the result lists vehicle id 2 before vehicle id 1 — ties follow the
underlying row order, not ascending vehicle id. -/
theorem search_tie_not_broken_by_id :
    filterTransportsService db8 f8 = Except.ok [mkResp t8a tr8a, mkResp t8b tr8b] ∧
      (mkResp t8a tr8a).rating = (mkResp t8b tr8b).rating ∧
      (mkResp t8a tr8a).id = 2 ∧ (mkResp t8b tr8b).id = 1 :=
  ⟨rfl, rfl, rfl, rfl⟩

/-- C8 witness: the sortedness theorem applied to the concrete search. -/
theorem search_result_sorted_by_key_witness :
    List.Pairwise (respLe f8) [mkResp t8a tr8a, mkResp t8b tr8b] :=
  search_result_sorted_by_key db8 f8 [mkResp t8a tr8a, mkResp t8b tr8b] rfl

/-- C4: with the ownership check passed, adding a schedule fails with
400 "Schedule with these times already exists for this transport"
exactly when a schedule with the identical (transport_id, start_time,
end_time) triple is already stored — and succeeds otherwise, even when
the new interval overlaps an existing one: the write-path check is
literal equality, not overlap. -/
theorem duplicate_schedule_literal_equality (db : DB) (p : ScheduleCreate)
    (uid : Nat) (t : Transport)
    (hok : getTransportAndValidateUser db p.transport_id uid = Except.ok t) :
    ((∃ s ∈ db.schedules, s.id_transport = p.transport_id ∧
        s.start_time = p.start_time ∧ s.end_time = p.end_time) →
      addTransportScheduleService db p uid =
        (db, Except.error
          ⟨400, "Schedule with these times already exists for this transport"⟩)) ∧
    ((¬ ∃ s ∈ db.schedules, s.id_transport = p.transport_id ∧
        s.start_time = p.start_time ∧ s.end_time = p.end_time) →
      addTransportScheduleService db p uid =
        ({ db with
            schedules := db.schedules ++
              [⟨db.nextScheduleId, p.start_time, p.end_time, p.reason, t.id, none⟩]
            nextScheduleId := db.nextScheduleId + 1 },
          Except.ok ⟨db.nextScheduleId, p.start_time, p.end_time, p.reason, t.id, none⟩)) := by
  have hany : (db.schedules.any (fun s =>
      s.id_transport == p.transport_id &&
      decide (s.start_time = p.start_time) &&
      decide (s.end_time = p.end_time)) = true) ↔
      ∃ s ∈ db.schedules, s.id_transport = p.transport_id ∧
        s.start_time = p.start_time ∧ s.end_time = p.end_time := by
    simp [List.any_eq_true, Bool.and_eq_true, decide_eq_true_eq, beq_iff_eq, and_assoc]
  constructor
  · intro hex
    have hb := hany.mpr hex
    simp [addTransportScheduleService, hok, hb]
  · intro hnex
    have hb : (db.schedules.any (fun s =>
        s.id_transport == p.transport_id &&
        decide (s.start_time = p.start_time) &&
        decide (s.end_time = p.end_time))) = false :=
      Bool.eq_false_iff.mpr (fun hc => hnex (hany.mp hc))
    simp [addTransportScheduleService, hok, hb]

/-- C4 witness data: user 7 owns carrier 1 which owns transport 1; the
store already holds the schedule [10, 20) for transport 1. -/
def car4 : Carrier := ⟨1, 7⟩

def t4 : Transport :=
  ⟨1, "Bus-4", "b", "m", 2020, 40, "p", false, false, false, false, false, 4, 1⟩

def sch4 : Schedule := ⟨0, 10, 20, ScheduleReasonEnum.TECHNICAL, 1, none⟩

def db4 : DB := ⟨[], [car4], [t4], [], [], [sch4], 0, 0, 1⟩

def p4 : ScheduleCreate := ⟨1, 10, 20, ScheduleReasonEnum.TECHNICAL⟩

def p4b : ScheduleCreate := ⟨1, 10, 30, ScheduleReasonEnum.TECHNICAL⟩

/-- C4 witness: re-adding the identical (1, 10, 20) schedule fails with
400, while adding (1, 10, 30) — overlapping the stored [10, 20) but not
identical to it — succeeds. -/
theorem duplicate_schedule_literal_equality_witness :
    (addTransportScheduleService db4 p4 7 =
      (db4, Except.error
        ⟨400, "Schedule with these times already exists for this transport"⟩)) ∧
    (addTransportScheduleService db4 p4b 7 =
      ({ db4 with
          schedules := db4.schedules ++
            [⟨db4.nextScheduleId, p4b.start_time, p4b.end_time, p4b.reason, t4.id, none⟩]
          nextScheduleId := db4.nextScheduleId + 1 },
        Except.ok ⟨db4.nextScheduleId, p4b.start_time, p4b.end_time, p4b.reason, t4.id, none⟩)) :=
  ⟨(duplicate_schedule_literal_equality db4 p4 7 t4 rfl).1 (by decide),
    (duplicate_schedule_literal_equality db4 p4b 7 t4 rfl).2 (by decide)⟩

/-- C6: for a city pair, under the (id_from, id_to) uniqueness invariant
of the routes table, the get-or-create-route block succeeds, a second
call for the same ordered pair succeeds as well — returning the same
route and leaving the state unchanged, with no error on the repeated
call — and exactly one route row for the pair exists afterwards. -/
theorem getOrCreateRoute_idempotent (db : DB) (A B : Nat)
    (hA : cityExists db A = true) (hB : cityExists db B = true)
    (hinv : (db.routes.filter (fun r => r.id_from == A && r.id_to == B)).length ≤ 1) :
    ∃ r1 db1, getOrCreateRoute db A B = Except.ok (r1, db1) ∧
      getOrCreateRoute db1 A B = Except.ok (r1, db1) ∧
      (db1.routes.filter (fun r => r.id_from == A && r.id_to == B)).length = 1 := by
  cases hf : db.routes.find? (fun r => r.id_from == A && r.id_to == B) with
  | some r0 =>
    refine ⟨r0, db, ?_, ?_, ?_⟩
    · unfold getOrCreateRoute
      rw [hf]
    · unfold getOrCreateRoute
      rw [hf]
    · have h1 := List.mem_of_find?_eq_some hf
      have h2 := List.find?_some hf
      have hmem : r0 ∈ db.routes.filter (fun r => r.id_from == A && r.id_to == B) :=
        List.mem_filter.mpr ⟨h1, h2⟩
      exact Nat.le_antisymm hinv (List.length_pos_of_mem hmem)
  | none =>
    have hnil : db.routes.filter (fun r => r.id_from == A && r.id_to == B) = [] := by
      rw [List.filter_eq_nil_iff]
      exact fun a ha hp => (List.find?_eq_none.mp hf a ha) hp
    have hnew : (fun r => r.id_from == A && r.id_to == B)
        (⟨db.nextRouteId, A, B⟩ : Route) = true := by simp
    have hf2 : (db.routes ++ [(⟨db.nextRouteId, A, B⟩ : Route)]).find?
        (fun r => r.id_from == A && r.id_to == B) =
        some ⟨db.nextRouteId, A, B⟩ := by
      rw [List.find?_append, hf]
      simp
    refine ⟨⟨db.nextRouteId, A, B⟩,
      { db with routes := db.routes ++ [⟨db.nextRouteId, A, B⟩],
                nextRouteId := db.nextRouteId + 1 }, ?_, ?_, ?_⟩
    · unfold getOrCreateRoute
      rw [hf, hA, hB]
      rfl
    · unfold getOrCreateRoute
      simp only [hf2]
    · show ((db.routes ++ [(⟨db.nextRouteId, A, B⟩ : Route)]).filter
          (fun r => r.id_from == A && r.id_to == B)).length = 1
      rw [List.filter_append, hnil]
      simp [hnew]

/-- C6 witness data: a store holding cities 3 and 4 and no routes. -/
def db6 : DB := ⟨[⟨3, "CityA", "R"⟩, ⟨4, "CityB", "R"⟩], [], [], [], [], [], 0, 0, 0⟩

/-- C6 witness: on the concrete store, both calls for the pair (3, 4)
succeed with the same route and state, and exactly one row exists. -/
theorem getOrCreateRoute_idempotent_witness :
    ∃ r1 db1, getOrCreateRoute db6 3 4 = Except.ok (r1, db1) ∧
      getOrCreateRoute db1 3 4 = Except.ok (r1, db1) ∧
      (db1.routes.filter (fun r => r.id_from == 3 && r.id_to == 4)).length = 1 :=
  getOrCreateRoute_idempotent db6 3 4 rfl rfl (by decide)

/-- C7 failing input: "now" = 100 with a filter whose start (50) is in
the past, whose end (40) is not after its start, and whose max_price
(5) is below its min_price (10) — all three invariants violated. -/
def f7 : TransportFilter :=
  ⟨1, 2, 50, 40, 1, 10, 5, none, none, none, none, none,
    some SortBy.rating, some SortOrder.desc⟩

/-- C7: at the failing input the validator body does compute the full
field→reason mapping for all three violations — the claim matches the
code's evident intent — but the raise of the single structured error
crashes with TypeError (pydantic v2 rejects the (field, message)
tuples), so validation ends in an unhandled TypeError and the mapping
is never reported to the caller. -/
theorem filter_validation_crashes_on_violations :
    validateTimesAndPrices 100 f7 =
      [("start_time", "Must be in the future"),
       ("end_time", "Must be after start_time"),
       ("max_price", "Must be greater than or equal to min_price")] ∧
    transportFilterValidate 100 f7 = FilterValidationResult.typeError :=
  ⟨rfl, rfl⟩

/-- C9 amended: when the requested (id_from, id_to) route does not
already exist and the origin or destination city row is missing, the
route-resolution block fails — but with the database's unhandled
IntegrityError from the foreign-key violation at commit, never with an
InvalidReference error: the service performs no city-existence check of
its own before attempting the insert. -/
theorem getOrCreateRoute_missing_city_integrity_error (db : DB) (A B : Nat)
    (hfind : db.routes.find? (fun r => r.id_from == A && r.id_to == B) = none)
    (hmiss : cityExists db A = false ∨ cityExists db B = false) :
    getOrCreateRoute db A B = Except.error ⟨500, "IntegrityError"⟩ := by
  unfold getOrCreateRoute
  rw [hfind]
  rcases hmiss with h | h <;> simp [h]

/-- C9 counterexample data: user 7 owns carrier 1 owning transport 1;
the cities table is empty, so neither city 1 nor city 2 exists. -/
def t9 : Transport :=
  ⟨1, "Bus-9", "b", "m", 2020, 40, "p", false, false, false, false, false, 4, 1⟩

def db9 : DB := ⟨[], [⟨1, 7⟩], [t9], [], [], [], 0, 0, 0⟩

/-- C9 counterexample: with no cities at all, adding route (1, 2) to the
transport fails with the unhandled 500 IntegrityError raised by the
commit — not with an InvalidReference error naming the missing city —
and no route row is persisted. -/
theorem route_add_integrity_error_not_invalid_reference :
    db9.cities = [] ∧
    addRouteToTransportService db9 1 1 2 100 200 7 =
      (db9, Except.error ⟨500, "IntegrityError"⟩) ∧
    (addRouteToTransportService db9 1 1 2 100 200 7).1.routes = [] :=
  ⟨rfl, rfl, rfl⟩

/-- C9 witness: the amended theorem applied to the concrete store with
no cities. -/
theorem getOrCreateRoute_missing_city_integrity_error_witness :
    getOrCreateRoute db9 1 2 = Except.error ⟨500, "IntegrityError"⟩ :=
  getOrCreateRoute_missing_city_integrity_error db9 1 2 rfl (Or.inl rfl)

/-- C10: the single-vehicle lookup answers 404 "Transport not found"
exactly when the inner join of the transport with its assignments is
empty at that id — that is, both when no vehicle with the id exists and
when the vehicle exists but has zero route assignments; the caller
cannot tell the two apart. -/
theorem get_by_id_404_iff_no_joined_row (db : DB) (tid : Nat) :
    getTransportByIdService db tid = Except.error ⟨404, "Transport not found"⟩ ↔
      ¬ ∃ t ∈ db.transports, t.id = tid ∧
        ∃ tr ∈ db.transport_routes, tr.transport_id = t.id := by
  unfold getTransportByIdService
  cases hh : ((joinTransportAssignments db).filter (fun x => x.1.id == tid)).head? with
  | none =>
    simp only []
    constructor
    · intro _
      rintro ⟨t, ht, hid, tr, htr, htid⟩
      have hmem : (t, tr) ∈ (joinTransportAssignments db).filter (fun x => x.1.id == tid) := by
        refine List.mem_filter.mpr ⟨mem_joinTransportAssignments.mpr ⟨ht, htr, htid⟩, ?_⟩
        simpa using hid
      rw [List.head?_eq_none_iff.mp hh] at hmem
      exact List.not_mem_nil _ hmem
    · intro _
      trivial
  | some x =>
    obtain ⟨t, tr⟩ := x
    simp only []
    constructor
    · intro h
      exact absurd h (by simp [mkResp])
    · intro hne
      exfalso
      have hmem := List.mem_of_mem_head? hh
      obtain ⟨hj, hid⟩ := List.mem_filter.mp hmem
      obtain ⟨ht, htr, htid⟩ := mem_joinTransportAssignments.mp hj
      exact hne ⟨t, ht, by simpa using hid, tr, htr, htid⟩

end Excursium
